import Mathlib

/-
Shallow embedding of the points-ledger core of the fideliza_backend
repository (src/database/models.py and src/api/v1/routes.py), together
with theorems settling the specification claims about it.

Modelling conventions:
- SQLAlchemy tables become Lists of structures inside a `DB` record;
  autoincrement primary keys are modelled as max-id + 1.
- `sum(...)` / `scalar_one_or_none() or 0` becomes a fold returning 0 on
  the empty selection.
- An HTTP handler becomes a function from the database state and the
  authenticated user to a result type whose error constructors mirror the
  raised HTTPExceptions; a successful handler returns the new state.
-/

namespace Fideliza

/-- Model of `PointTransaction` (models.py): one signed ledger entry. -/
structure PointTransaction where
  id : Nat
  points : Int
  client_id : Nat
  company_id : Nat
  awarded_by_id : Nat
deriving Repr, DecidableEq

/-- Model of `Reward` (models.py). -/
structure Reward where
  id : Nat
  name : String
  description : Option String
  points_required : Int
  company_id : Nat
deriving Repr, DecidableEq

/-- Model of `RedeemedReward` (models.py): one redemption record. -/
structure RedeemedReward where
  id : Nat
  reward_id : Nat
  client_id : Nat
  company_id : Nat
  points_spent : Int
deriving Repr, DecidableEq

/-- Model of `User` (models.py), restricted to the fields the ledger
core reads: id, role string and optional company. -/
structure User where
  id : Nat
  user_type : String
  company_id : Option Nat
deriving Repr, DecidableEq

/-- The database state: the four tables the claims touch. -/
structure DB where
  users : List User
  transactions : List PointTransaction
  rewards : List Reward
  redeemed : List RedeemedReward
deriving Repr, DecidableEq

/-- Next autoincrement id for `point_transactions`. -/
def nextTransactionId (db : DB) : Nat :=
  db.transactions.foldl (fun a t => max a t.id) 0 + 1

/-- Next autoincrement id for `redeemed_rewards`. -/
def nextRedeemedId (db : DB) : Nat :=
  db.redeemed.foldl (fun a r => max a r.id) 0 + 1

/-- The balance query used by `redeem_reward` (routes.py lines 504-508)
and, grouped per company, by `get_my_points` (lines 372-379):
`select(func.sum(PointTransaction.points)).filter(client_id, company_id)`,
with `scalar_one_or_none() or 0` giving 0 on an empty selection. -/
def sumPoints (db : DB) (clientId companyId : Nat) : Int :=
  ((db.transactions.filter
      (fun t => t.client_id = clientId ∧ t.company_id = companyId)).map
    (fun t => t.points)).sum

/-- Companies in which a client has at least one transaction: the key set
of `client_points_map` in `get_my_rewards_status` (routes.py lines
440-445) and the groups of the GROUP BY in `get_my_points`. -/
def clientCompanies (db : DB) (clientId : Nat) : List Nat :=
  ((db.transactions.filter (fun t => t.client_id = clientId)).map
    (fun t => t.company_id)).dedup

/-- Result of the `redeem_reward` handler (routes.py lines 477-535). -/
inductive RedeemResult where
  | forbidden
  | rewardNotFound
  | insufficientPoints (current required : Int)
  | success (db : DB) (redemption : RedeemedReward)
deriving Repr, DecidableEq

/-- The database state after a redeem call: a success carries the new
state; every error path left the original state untouched (routes.py
raises before any `db.add_all` / `commit`). -/
def RedeemResult.dbAfter (res : RedeemResult) (db : DB) : DB :=
  match res with
  | .success dbNew _ => dbNew
  | _ => db

/-- Model of `redeem_reward` (routes.py lines 477-535): role guard, reward
lookup (404 when absent), balance check against `sumPoints`, then in one
commit a debit entry of `-points_required` self-attributed to the client
plus a `RedeemedReward` snapshotting `points_spent`. -/
def redeem_reward (db : DB) (current_user : User) (reward_id : Nat) :
    RedeemResult :=
  if current_user.user_type ≠ "CLIENT" then .forbidden
  else
    match db.rewards.find? (fun r => r.id = reward_id) with
    | none => .rewardNotFound
    | some reward =>
      let total_points := sumPoints db current_user.id reward.company_id
      if total_points < reward.points_required then
        .insufficientPoints total_points reward.points_required
      else
        let spend : PointTransaction :=
          { id := nextTransactionId db
            points := -reward.points_required
            client_id := current_user.id
            company_id := reward.company_id
            awarded_by_id := current_user.id }
        let redemption : RedeemedReward :=
          { id := nextRedeemedId db
            reward_id := reward.id
            client_id := current_user.id
            company_id := reward.company_id
            points_spent := reward.points_required }
        .success
          { db with
            transactions := db.transactions ++ [spend]
            redeemed := db.redeemed ++ [redemption] }
          redemption

/-- Model of the `PointAdd` request schema (schemas.py lines 193-201):
`points` defaults to 1 and carries no positivity constraint. -/
structure PointAdd where
  client_identifier : String
  points : Int := 1
deriving Repr, DecidableEq

/-- Numeric value of a decimal digit character, `none` otherwise. -/
def digitVal (c : Char) : Option Nat :=
  if '0' ≤ c ∧ c ≤ '9' then some (c.toNat - '0'.toNat) else none

/-- Decimal value of a nonempty all-digit character list. -/
def digitsToNat : List Char → Option Nat
  | [] => none
  | cs =>
    cs.foldl
      (fun acc c => acc.bind (fun a => (digitVal c).map (fun d => 10 * a + d)))
      (some 0)

/-- Model of Python's `int(str)` as used on `payload.client_identifier`
(routes.py line 691): an optional sign followed by decimal digits;
anything else raises `ValueError` (modelled as `none`). -/
def parsePyInt (s : String) : Option Int :=
  match s.data with
  | [] => none
  | '-' :: cs => (digitsToNat cs).map (fun n => -(n : Int))
  | '+' :: cs => (digitsToNat cs).map (fun n => (n : Int))
  | cs => (digitsToNat cs).map (fun n => (n : Int))

/-- Result of the `add_points_to_client` handler (routes.py 683-713). -/
inductive AddPointsResult where
  | forbidden
  | invalidIdentifier
  | clientNotFound
  | integrityError
  | success (db : DB) (t : PointTransaction)
deriving Repr, DecidableEq

/-- Model of `add_points_to_client` (routes.py lines 683-713): role guard
from `get_current_collaborator_or_admin`, `int(...)` parse of the client
identifier (400 on failure), client lookup with role check (404), then an
unconditional insert of a transaction carrying `payload.points` with the
issuer's company and id. A NULL issuer company would violate the NOT NULL
column constraint at commit, modelled as `integrityError`. -/
def add_points_to_client (db : DB) (current_user : User)
    (payload : PointAdd) : AddPointsResult :=
  if ¬(current_user.user_type = "ADMIN" ∨
       current_user.user_type = "COLLABORATOR") then .forbidden
  else
    match parsePyInt payload.client_identifier with
    | none => .invalidIdentifier
    | some cid =>
      match db.users.find? (fun u => (u.id : Int) = cid) with
      | none => .clientNotFound
      | some client =>
        if client.user_type ≠ "CLIENT" then .clientNotFound
        else
          match current_user.company_id with
          | none => .integrityError
          | some comp =>
            let t : PointTransaction :=
              { id := nextTransactionId db
                points := payload.points
                client_id := client.id
                company_id := comp
                awarded_by_id := current_user.id }
            .success { db with transactions := db.transactions ++ [t] } t

/-- Model of the `RewardUpdate` request schema (schemas.py lines 246-250):
each field is optional; with `exclude_unset=True` only supplied fields are
applied. -/
structure RewardUpdate where
  name : Option String := none
  description : Option String := none
  points_required : Option Int := none
deriving Repr, DecidableEq

/-- Apply the supplied fields of a `RewardUpdate` to a reward, mirroring
the `setattr` loop of `update_reward` (routes.py lines 779-781). -/
def applyRewardUpdate (r : Reward) (upd : RewardUpdate) : Reward :=
  { r with
    name := upd.name.getD r.name
    description :=
      match upd.description with
      | some d => some d
      | none => r.description
    points_required := upd.points_required.getD r.points_required }

/-- Result of the `update_reward` handler (routes.py 767-786). -/
inductive UpdateRewardResult where
  | notFound
  | success (db : DB) (r : Reward)
deriving Repr, DecidableEq

/-- Model of `update_reward` (routes.py lines 767-786): lookup by id, 404
when absent or owned by another company, otherwise overwrite only the
supplied fields of that reward row and commit. -/
def update_reward (db : DB) (current_user : User) (reward_id : Nat)
    (upd : RewardUpdate) : UpdateRewardResult :=
  match db.rewards.find? (fun r => r.id = reward_id) with
  | none => .notFound
  | some r =>
    if current_user.company_id ≠ some r.company_id then .notFound
    else
      let r2 := applyRewardUpdate r upd
      .success
        { db with
          rewards := db.rewards.map (fun x => if x.id = reward_id then r2 else x) }
        r2

/-- Model of the `RewardStatusResponse` schema (schemas.py 261-264),
restricted to the fields the claims mention. -/
structure RewardStatusResponse where
  id : Nat
  name : String
  points_required : Int
  company_id : Nat
  redeemable : Bool
  points_to_redeem : Int
deriving Repr, DecidableEq

/-- Model of `get_my_rewards_status` (routes.py lines 419-473): role
guard, per-company point map of the client, early `[]` when the map is
empty, rewards of the relevant companies only, and per reward the
redeemable flag and `max 0 (required - points)`. `none` models the 403. -/
def get_my_rewards_status (db : DB) (current_user : User) :
    Option (List RewardStatusResponse) :=
  if current_user.user_type ≠ "CLIENT" then none
  else
    let companies := clientCompanies db current_user.id
    if companies = [] then some []
    else
      let all_rewards := db.rewards.filter (fun r => r.company_id ∈ companies)
      some (all_rewards.map (fun reward =>
        let pts := sumPoints db current_user.id reward.company_id
        { id := reward.id
          name := reward.name
          points_required := reward.points_required
          company_id := reward.company_id
          redeemable := decide (pts ≥ reward.points_required)
          points_to_redeem := max 0 (reward.points_required - pts) }))

/-- Model of `get_my_points` (routes.py lines 353-379): role guard, then
the client's transactions summed per company (the GROUP BY over the join
with `companies`; every transaction's company exists by foreign key).
Each pair is (total_points, company id); `none` models the 403. -/
def get_my_points (db : DB) (current_user : User) :
    Option (List (Int × Nat)) :=
  if current_user.user_type ≠ "CLIENT" then none
  else
    some ((clientCompanies db current_user.id).map
      (fun comp => (sumPoints db current_user.id comp, comp)))

/-- Model of the `CompanyReport` response schema (schemas.py 285-289). -/
structure CompanyReport where
  total_points_awarded : Int
  total_rewards_redeemed : Nat
  unique_customers : Nat
deriving Repr, DecidableEq

/-- The row set of the report query of `get_company_summary_report`
(routes.py lines 823-832): `point_transactions` of the company LEFT OUTER
JOINed with `redeemed_rewards` on `RedeemedReward.company_id ==
PointTransaction.company_id`. Each transaction pairs with every matching
redemption, or with `none` when the company has no redemption. -/
def reportRows (db : DB) (companyId : Nat) :
    List (PointTransaction × Option RedeemedReward) :=
  (db.transactions.filter (fun t => t.company_id = companyId)).flatMap
    (fun t =>
      match db.redeemed.filter (fun r => r.company_id = t.company_id) with
      | [] => [(t, none)]
      | rs => rs.map (fun r => (t, some r)))

/-- Model of `get_company_summary_report` (routes.py lines 803-841):
aggregates over the joined rows — `sum(points) FILTER (points > 0)`,
`count(distinct client_id)`, `count(redeemed_rewards.id)` — with
`coalesce` to 0 and `none` for the missing-company 403. -/
def get_company_summary_report (db : DB) (current_admin : User) :
    Option CompanyReport :=
  if current_admin.user_type ≠ "ADMIN" then none
  else
    match current_admin.company_id with
    | none => none
    | some companyId =>
      let rows := reportRows db companyId
      some
        { total_points_awarded :=
            ((rows.filter (fun p => p.1.points > 0)).map
              (fun p => p.1.points)).sum
          unique_customers :=
            ((rows.map (fun p => p.1.client_id)).dedup).length
          total_rewards_redeemed :=
            (rows.filter (fun p => p.2.isSome)).length }

/-- The summary report as the spec words it (section 4.6): sum of the
positive entries of the company, number of distinct clients with any
entry there, and number of redemption records of the company. Written
from the spec for comparison with `get_company_summary_report`. -/
def companyReportSpec (db : DB) (companyId : Nat) : CompanyReport :=
  { total_points_awarded :=
      ((db.transactions.filter
          (fun t => t.company_id = companyId ∧ t.points > 0)).map
        (fun t => t.points)).sum
    unique_customers :=
      (((db.transactions.filter (fun t => t.company_id = companyId)).map
          (fun t => t.client_id)).dedup).length
    total_rewards_redeemed :=
      (db.redeemed.filter (fun r => r.company_id = companyId)).length }

/-- An operation against the ledger: a credit by an issuer or a
redemption by a client. -/
inductive Op where
  | award (issuer : User) (payload : PointAdd)
  | redeem (user : User) (reward_id : Nat)
deriving Repr, DecidableEq

/-- Apply one operation; a failing handler leaves the state unchanged. -/
def applyOp (db : DB) : Op → DB
  | .award issuer payload =>
    match add_points_to_client db issuer payload with
    | .success dbNew _ => dbNew
    | _ => db
  | .redeem u rid =>
    match redeem_reward db u rid with
    | .success dbNew _ => dbNew
    | _ => db

/-- Apply a sequence of award/redeem operations. -/
def applyOps (db : DB) (ops : List Op) : DB := ops.foldl applyOp db

/-- A demo client account (id 10); registered clients carry no company. -/
def demoClient : User := { id := 10, user_type := "CLIENT", company_id := none }

/-- A demo admin (id 11) of company 1. -/
def demoAdmin : User := { id := 11, user_type := "ADMIN", company_id := some 1 }

/-- A demo 10-point reward (id 1) of company 1. -/
def demoReward : Reward :=
  { id := 1, name := "Coffee", description := none
    points_required := 10, company_id := 1 }

/-- Initial demo state: the two demo accounts, the demo reward, and an
empty ledger. -/
def demoDB0 : DB :=
  { users := [demoClient, demoAdmin]
    transactions := []
    rewards := [demoReward]
    redeemed := [] }

/-- Demo state after the admin awards 5 then 7 points to client 10. -/
def demoDB12 : DB :=
  applyOps demoDB0
    [.award demoAdmin { client_identifier := "10", points := 5 },
     .award demoAdmin { client_identifier := "10", points := 7 }]

/-- Demo state after client 10 redeems the 10-point reward out of the
12-point balance of `demoDB12`. -/
def demoDBRedeemed : DB := applyOps demoDB12 [.redeem demoClient 1]

/-- A 5-point reward (id 2) of company 1, used to exercise the report. -/
def bugReward : Reward :=
  { id := 2, name := "Snack", description := none
    points_required := 5, company_id := 1 }

/-- A reachable state with four company-1 transactions and two
redemptions: awards of 5 and 7 to client 10 followed by two redemptions
of the 5-point reward. -/
def bugDB : DB :=
  applyOps { demoDB0 with rewards := demoDB0.rewards ++ [bugReward] }
    [.award demoAdmin { client_identifier := "10", points := 5 },
     .award demoAdmin { client_identifier := "10", points := 7 },
     .redeem demoClient 2,
     .redeem demoClient 2]

/-- Appending one transaction changes a pair's balance by that
transaction's points exactly when the transaction belongs to the pair. -/
theorem sumPoints_append (db dbNew : DB) (t : PointTransaction) (c k : Nat)
    (h : dbNew.transactions = db.transactions ++ [t]) :
    sumPoints dbNew c k
      = sumPoints db c k
        + (if t.client_id = c ∧ t.company_id = k then t.points else 0) := by
  by_cases hc : t.client_id = c ∧ t.company_id = k <;>
    simp [sumPoints, h, List.filter_append, hc]


/-- C2: for every client and existing reward, when the client's balance
in the reward's company covers `points_required`, `redeem_reward`
succeeds, appends exactly one debit ledger entry with
`points = -points_required` and `awarded_by_id` equal to the client, adds
exactly one redemption with `points_spent = points_required`, and the
resulting balance is the old balance minus `points_required`. -/
theorem redeem_success_spends_exactly
    (db : DB) (u : User) (rid : Nat) (reward : Reward)
    (hu : u.user_type = "CLIENT")
    (hfind : db.rewards.find? (fun r => r.id = rid) = some reward)
    (hbal : reward.points_required ≤ sumPoints db u.id reward.company_id) :
    ∃ dbNew redemption,
      redeem_reward db u rid = .success dbNew redemption
      ∧ dbNew.transactions = db.transactions ++
          [{ id := nextTransactionId db
             points := -reward.points_required
             client_id := u.id
             company_id := reward.company_id
             awarded_by_id := u.id }]
      ∧ dbNew.redeemed = db.redeemed ++ [redemption]
      ∧ redemption.points_spent = reward.points_required
      ∧ redemption.client_id = u.id
      ∧ redemption.reward_id = reward.id
      ∧ sumPoints dbNew u.id reward.company_id
          = sumPoints db u.id reward.company_id - reward.points_required := by
  have hnlt : ¬ sumPoints db u.id reward.company_id < reward.points_required :=
    not_lt.mpr hbal
  unfold redeem_reward
  rw [if_neg (by simp [hu]), hfind]
  simp only [hnlt, if_false]
  refine ⟨_, _, rfl, rfl, rfl, rfl, rfl, rfl, ?_⟩
  rw [sumPoints_append db _ _ u.id reward.company_id rfl,
    if_pos (And.intro rfl rfl)]
  dsimp only
  omega

/-- Witness for C2: on the 12-point demo balance, redeeming the 10-point
reward succeeds, spends 10 points, and leaves a balance of 2. -/
theorem redeem_success_spends_exactly_witness :
    ∃ dbNew redemption,
      redeem_reward demoDB12 demoClient 1 = .success dbNew redemption
      ∧ redemption.points_spent = 10
      ∧ sumPoints dbNew demoClient.id 1 = 2 := by
  obtain ⟨dbNew, redemption, h1, _, _, h4, _, _, h7⟩ :=
    redeem_success_spends_exactly demoDB12 demoClient 1 demoReward
      (by decide) (by decide) (by decide)
  refine ⟨dbNew, redemption, h1, h4, ?_⟩
  have h7x : sumPoints dbNew demoClient.id 1
      = sumPoints demoDB12 demoClient.id 1 - 10 := h7
  rw [h7x]
  decide

/-- C3: for every client and existing reward, when the client's balance
in the reward's company is strictly below `points_required`,
`redeem_reward` fails with the insufficient-points error carrying the
current balance and the required amount, and the state is unchanged. -/
theorem redeem_insufficient_reports_and_preserves
    (db : DB) (u : User) (rid : Nat) (reward : Reward)
    (hu : u.user_type = "CLIENT")
    (hfind : db.rewards.find? (fun r => r.id = rid) = some reward)
    (hlt : sumPoints db u.id reward.company_id < reward.points_required) :
    redeem_reward db u rid
      = .insufficientPoints (sumPoints db u.id reward.company_id)
          reward.points_required
    ∧ (redeem_reward db u rid).dbAfter db = db := by
  have hres : redeem_reward db u rid
      = .insufficientPoints (sumPoints db u.id reward.company_id)
          reward.points_required := by
    unfold redeem_reward
    rw [if_neg (by simp [hu]), hfind]
    simp only [hlt, if_true]
  exact ⟨hres, by rw [hres]; rfl⟩


/-- Witness for C3: a client with zero ledger entries redeeming the
10-point demo reward gets the insufficient-points error with current 0
and required 10, and the state is untouched. -/
theorem redeem_insufficient_witness :
    redeem_reward demoDB0 demoClient 1 = .insufficientPoints 0 10
    ∧ (redeem_reward demoDB0 demoClient 1).dbAfter demoDB0 = demoDB0 := by
  obtain ⟨h1, h2⟩ :=
    redeem_insufficient_reports_and_preserves demoDB0 demoClient 1 demoReward
      (by decide) (by decide) (by decide)
  exact ⟨by rw [h1]; decide, h2⟩

/-- Counterexample to C4: in `demoDB0` reward 1 exists while client 10
holds no points in its company, so by the claim the call should fail with
`RewardNotFound`; the code returns `InsufficientPoints 0 10` instead. -/
theorem redeem_notfound_counterexample :
    demoDB0.rewards.find? (fun r => r.id = 1) = some demoReward
    ∧ demoDB0.transactions.filter (fun t => t.client_id = demoClient.id) = []
    ∧ redeem_reward demoDB0 demoClient 1 = .insufficientPoints 0 10
    ∧ redeem_reward demoDB0 demoClient 1 ≠ .rewardNotFound := by decide

/-- C4 (amended): for a client request, `redeem_reward` fails with
`RewardNotFound` exactly when no reward carries the requested id; a
client holding no points in an existing reward's company instead gets
`InsufficientPoints`; in either failure no ledger entry or redemption
record is created. -/
theorem redeem_notfound_iff_reward_absent
    (db : DB) (u : User) (rid : Nat) (hu : u.user_type = "CLIENT") :
    (redeem_reward db u rid = .rewardNotFound
      ↔ db.rewards.find? (fun r => r.id = rid) = none)
    ∧ (∀ reward, db.rewards.find? (fun r => r.id = rid) = some reward →
        sumPoints db u.id reward.company_id = 0 →
        0 < reward.points_required →
        redeem_reward db u rid
          = .insufficientPoints 0 reward.points_required)
    ∧ (redeem_reward db u rid = .rewardNotFound →
        (redeem_reward db u rid).dbAfter db = db)
    ∧ (∀ cur req, redeem_reward db u rid = .insufficientPoints cur req →
        (redeem_reward db u rid).dbAfter db = db) := by
  refine ⟨?_, ?_, ?_, ?_⟩
  · cases hfind : db.rewards.find? (fun r => r.id = rid) with
    | none => simp [redeem_reward, hu, hfind]
    | some reward =>
      unfold redeem_reward
      rw [if_neg (by simp [hu]), hfind]
      constructor
      · intro h
        by_cases hlt : sumPoints db u.id reward.company_id
            < reward.points_required
        · simp only [hlt, if_true] at h; exact absurd h (by simp)
        · simp only [hlt, if_false] at h; exact absurd h (by simp)
      · intro h; exact absurd h (by simp)
  · intro reward hfind hzero hpos
    unfold redeem_reward
    rw [if_neg (by simp [hu]), hfind]
    simp only [hzero, hpos, if_true]
  · intro h; rw [h]; rfl
  · intro cur req h; rw [h]; rfl

/-- Witness for the amended C4: with reward 1 present, the result is not
`RewardNotFound`; with an unknown reward id 99 it is; the no-points
client is answered with `InsufficientPoints 0 10` and the state is kept. -/
theorem redeem_notfound_iff_reward_absent_witness :
    redeem_reward demoDB0 demoClient 99 = .rewardNotFound
    ∧ redeem_reward demoDB0 demoClient 1 = .insufficientPoints 0 10
    ∧ (redeem_reward demoDB0 demoClient 1).dbAfter demoDB0 = demoDB0 := by
  have h99 := (redeem_notfound_iff_reward_absent demoDB0 demoClient 99
    (by decide)).1.mpr (by decide)
  have h1 := (redeem_notfound_iff_reward_absent demoDB0 demoClient 1
    (by decide)).2.1 demoReward (by decide) (by decide) (by decide)
  have hkeep := (redeem_notfound_iff_reward_absent demoDB0 demoClient 1
    (by decide)).2.2.2 0 demoReward.points_required h1
  exact ⟨h99, by rw [h1]; rfl, hkeep⟩

/-- C10: every ledger entry created by `add_points_to_client` carries the
issuing user's company as its `company_id` and the issuer's id as
`awarded_by_id`, and is appended as the sole new entry; the other tables
are untouched. -/
theorem award_attributed_to_issuer
    (db dbNew : DB) (issuer : User) (payload : PointAdd)
    (t : PointTransaction)
    (h : add_points_to_client db issuer payload = .success dbNew t) :
    issuer.company_id = some t.company_id
    ∧ t.awarded_by_id = issuer.id
    ∧ dbNew.transactions = db.transactions ++ [t]
    ∧ dbNew.users = db.users
    ∧ dbNew.rewards = db.rewards
    ∧ dbNew.redeemed = db.redeemed := by
  unfold add_points_to_client at h
  split at h
  · exact absurd h (by simp)
  · split at h
    · exact absurd h (by simp)
    · split at h
      · exact absurd h (by simp)
      · split at h
        · exact absurd h (by simp)
        · split at h
          · exact absurd h (by simp)
          · rename_i comp hcomp
            injection h with h1 h2
            subst h1; subst h2
            exact ⟨by rw [hcomp], rfl, rfl, rfl, rfl, rfl⟩

/-- Witness for C10: the demo admin of company 1 awards a point to client
10; the created entry carries company 1 and awarder 11. -/
theorem award_attributed_to_issuer_witness :
    ∃ dbNew t,
      add_points_to_client demoDB0 demoAdmin { client_identifier := "10" }
        = .success dbNew t
      ∧ demoAdmin.company_id = some t.company_id
      ∧ t.awarded_by_id = demoAdmin.id := by
  cases hres : add_points_to_client demoDB0 demoAdmin
      { client_identifier := "10" } with
  | success dbNew t =>
    have h := award_attributed_to_issuer demoDB0 dbNew demoAdmin
      { client_identifier := "10" } t hres
    exact ⟨dbNew, t, rfl, h.1, h.2.1⟩
  | forbidden => exact absurd hres (by decide)
  | invalidIdentifier => exact absurd hres (by decide)
  | clientNotFound => exact absurd hres (by decide)
  | integrityError => exact absurd hres (by decide)

/-- Counterexample to C6: an award request of −5 points is not rejected;
`add_points_to_client` succeeds and creates a ledger entry of −5. -/
theorem add_points_negative_counterexample :
    add_points_to_client demoDB0 demoAdmin
        { client_identifier := "10", points := -5 }
      = .success
          { demoDB0 with
            transactions := demoDB0.transactions ++
              [{ id := 1, points := -5, client_id := 10, company_id := 1
                 awarded_by_id := 11 }] }
          { id := 1, points := -5, client_id := 10, company_id := 1
            awarded_by_id := 11 } := by decide

/-- C6 (amended): the award amount defaults to 1 when the caller omits
it, but no positivity validation exists: any integer amount, positive or
not, is accepted and recorded verbatim in the single created ledger
entry. The invalid-input rejection concerns only an unparseable client
identifier. -/
theorem add_points_accepts_any_amount :
    (∀ s : String, ({ client_identifier := s } : PointAdd).points = 1)
    ∧ (∀ (db : DB) (issuer client : User) (comp : Nat) (s : String)
        (pts : Int),
        issuer.user_type = "ADMIN" ∨ issuer.user_type = "COLLABORATOR" →
        issuer.company_id = some comp →
        parsePyInt s = some (client.id : Int) →
        db.users.find? (fun u => (u.id : Int) = (client.id : Int))
          = some client →
        client.user_type = "CLIENT" →
        ∃ t,
          add_points_to_client db issuer { client_identifier := s, points := pts }
            = .success { db with transactions := db.transactions ++ [t] } t
          ∧ t.points = pts) := by
  refine ⟨fun s => rfl, ?_⟩
  intro db issuer client comp s pts hrole hcomp hparse hfind hclient
  refine ⟨{ id := nextTransactionId db
            points := pts
            client_id := client.id
            company_id := comp
            awarded_by_id := issuer.id }, ?_, rfl⟩
  unfold add_points_to_client
  rw [if_neg (by simp [hrole])]
  split
  · rename_i heq
    rw [hparse] at heq
    exact absurd heq (by simp)
  · rename_i cid heq
    rw [hparse] at heq
    injection heq with heq
    subst heq
    split
    · rename_i heq2
      rw [hfind] at heq2
      exact absurd heq2 (by simp)
    · rename_i client2 heq2
      rw [hfind] at heq2
      injection heq2 with heq2
      subst heq2
      rw [if_neg (by simp [hclient])]
      split
      · rename_i heq3
        rw [hcomp] at heq3
        exact absurd heq3 (by simp)
      · rename_i comp2 heq3
        rw [hcomp] at heq3
        injection heq3 with heq3
        subst heq3
        rfl

/-- Witness for the amended C6: a payload that omits `points` carries 1,
and an award of −5 points to client 10 is accepted with the −5 amount
stored. -/
theorem add_points_accepts_any_amount_witness :
    ({ client_identifier := "10" } : PointAdd).points = 1
    ∧ ∃ t,
        add_points_to_client demoDB0 demoAdmin
            { client_identifier := "10", points := -5 }
          = .success
              { demoDB0 with transactions := demoDB0.transactions ++ [t] } t
        ∧ t.points = -5 :=
  ⟨add_points_accepts_any_amount.1 "10",
   add_points_accepts_any_amount.2 demoDB0 demoAdmin demoClient 1 "10" (-5)
     (by decide) (by decide) (by decide) (by decide) (by decide)⟩

/-- C8: `update_reward` rewrites only the rewards table; every existing
redemption record (hence each stored `points_spent`) and every ledger
entry survives unchanged. -/
theorem update_reward_preserves_history
    (db dbNew : DB) (u : User) (rid : Nat) (upd : RewardUpdate) (r : Reward)
    (h : update_reward db u rid upd = .success dbNew r) :
    dbNew.redeemed = db.redeemed
    ∧ dbNew.transactions = db.transactions
    ∧ dbNew.users = db.users
    ∧ ∀ rr ∈ db.redeemed, rr ∈ dbNew.redeemed := by
  unfold update_reward at h
  split at h
  · exact absurd h (by simp)
  · split at h
    · exact absurd h (by simp)
    · injection h with h1 h2
      subst h1
      exact ⟨rfl, rfl, rfl, fun rr hrr => hrr⟩

/-- Witness for C8: on the demo state holding one redemption with
`points_spent = 10`, raising the reward's cost to 99 leaves the
redemption table and the ledger untouched. -/
theorem update_reward_preserves_history_witness :
    ∃ dbNew r,
      update_reward demoDBRedeemed demoAdmin 1
          { points_required := some 99 } = .success dbNew r
      ∧ dbNew.redeemed = demoDBRedeemed.redeemed
      ∧ dbNew.transactions = demoDBRedeemed.transactions
      ∧ (demoDBRedeemed.redeemed.map (fun rr => rr.points_spent) = [10]) := by
  cases hres : update_reward demoDBRedeemed demoAdmin 1
      { points_required := some 99 } with
  | notFound => exact absurd hres (by decide)
  | success dbNew r =>
    have h := update_reward_preserves_history demoDBRedeemed dbNew demoAdmin 1
      { points_required := some 99 } r hres
    exact ⟨dbNew, r, rfl, h.1, h.2.1, by decide⟩

/-- C9: `get_my_rewards_status` reports statuses only for rewards of
companies where the requesting client has at least one point
transaction, and a client with no transactions receives the empty list
however many rewards exist. -/
theorem rewards_status_scoped_to_client_companies
    (db : DB) (u : User) (hu : u.user_type = "CLIENT") :
    (∀ res, get_my_rewards_status db u = some res →
      ∀ s ∈ res, ∃ t ∈ db.transactions,
        t.client_id = u.id ∧ t.company_id = s.company_id)
    ∧ (db.transactions.filter (fun t => t.client_id = u.id) = [] →
        get_my_rewards_status db u = some []) := by
  constructor
  · intro res hres s hs
    unfold get_my_rewards_status at hres
    rw [if_neg (by simp [hu])] at hres
    dsimp only at hres
    split at hres
    · injection hres with hres
      subst hres
      exact absurd hs (by simp)
    · injection hres with hres
      subst hres
      obtain ⟨reward, hmem, hmap⟩ := List.mem_map.mp hs
      obtain ⟨hrew, hcomp⟩ := List.mem_filter.mp hmem
      have hcomp2 : reward.company_id ∈ clientCompanies db u.id := by
        simpa using hcomp
      have hscomp : s.company_id = reward.company_id := by
        rw [← hmap]
      obtain ⟨t, hmemt, hteq⟩ :=
        List.mem_map.mp (List.mem_dedup.mp hcomp2)
      obtain ⟨htin, htc⟩ := List.mem_filter.mp hmemt
      refine ⟨t, htin, by simpa using htc, ?_⟩
      rw [hscomp, hteq]
  · intro hfil
    unfold get_my_rewards_status
    rw [if_neg (by simp [hu])]
    have : clientCompanies db u.id = [] := by
      unfold clientCompanies
      rw [hfil]
      rfl
    rw [if_pos this]

/-- Witness for C9: on the demo ledger the reported statuses all point at
companies where client 10 has a transaction, and the fresh client with an
empty ledger gets the empty list although a reward exists. -/
theorem rewards_status_scoped_witness :
    (∃ res, get_my_rewards_status demoDB12 demoClient = some res
      ∧ ∀ s ∈ res, ∃ t ∈ demoDB12.transactions,
          t.client_id = demoClient.id ∧ t.company_id = s.company_id)
    ∧ get_my_rewards_status demoDB0 demoClient = some [] := by
  constructor
  · cases hres : get_my_rewards_status demoDB12 demoClient with
    | none => exact absurd hres (by decide)
    | some res =>
      exact ⟨res, rfl,
        (rewards_status_scoped_to_client_companies demoDB12 demoClient
          (by decide)).1 res hres⟩
  · exact (rewards_status_scoped_to_client_companies demoDB0 demoClient
      (by decide)).2 (by decide)

/-- C5: a pair's balance is always the signed sum of its ledger entries:
this holds after any sequence of award/redeem operations, `get_my_points`
reports exactly these sums per company, the balance over an empty ledger
is 0, and awarding 5 then 7 points to the demo client yields 12. -/
theorem balance_is_signed_sum :
    (∀ (db : DB) (ops : List Op) (clientId companyId : Nat),
      sumPoints (applyOps db ops) clientId companyId
        = (((applyOps db ops).transactions.filter
              (fun t => t.client_id = clientId ∧ t.company_id = companyId)).map
            (fun t => t.points)).sum)
    ∧ (∀ (db : DB) (u : User) (rows : List (Int × Nat)),
        get_my_points db u = some rows →
        ∀ p ∈ rows, p.1 = sumPoints db u.id p.2)
    ∧ (∀ (users : List User) (rewards : List Reward)
        (history : List RedeemedReward) (clientId companyId : Nat),
        sumPoints ⟨users, [], rewards, history⟩ clientId companyId = 0)
    ∧ sumPoints demoDB12 10 1 = 12 := by
  refine ⟨fun db ops c k => rfl, ?_, fun _ _ _ _ _ => rfl, by decide⟩
  intro db u rows h p hp
  unfold get_my_points at h
  split at h
  · exact absurd h (by simp)
  · injection h with h
    subst h
    obtain ⟨comp, _, hmap⟩ := List.mem_map.mp hp
    rw [← hmap]

/-- Witness for C5: after awarding 5 then 7 points, `get_my_points`
reports `[(12, 1)]` for the demo client and 12 is the pair's signed
ledger sum. -/
theorem balance_is_signed_sum_witness :
    get_my_points demoDB12 demoClient = some [(12, 1)]
    ∧ (12 : Int) = sumPoints demoDB12 demoClient.id 1 := by
  have h1 : get_my_points demoDB12 demoClient = some [(12, 1)] := by decide
  refine ⟨h1, ?_⟩
  exact balance_is_signed_sum.2.1 demoDB12 demoClient [(12, 1)] h1
    (12, 1) (by simp)

/-- C7 (code bug): the report query OUTER JOINs redemptions on
`company_id`, which fans rows out: on a reachable state with four
company-1 transactions (awards of 5 and 7, then two redemptions of a
5-point reward) the code reports 24 points awarded and 8 rewards
redeemed, while the spec's aggregates for the same state are 12 and 2. -/
theorem report_join_fanout :
    get_company_summary_report bugDB demoAdmin
      = some { total_points_awarded := 24
               total_rewards_redeemed := 8
               unique_customers := 1 }
    ∧ companyReportSpec bugDB 1
      = { total_points_awarded := 12
          total_rewards_redeemed := 2
          unique_customers := 1 }
    ∧ get_company_summary_report bugDB demoAdmin
        ≠ some (companyReportSpec bugDB 1) := by decide
